import Mathlib

/-
  Verification of the ocpp-gateway specification against its TypeScript source.

  Each section below shallowly embeds one service of the gateway:
  - Json: the JSON values manipulated by the gateway (wire frames, schemas).
  - parseEnvelope: src/src/ocpp/ocpp-envelope.ts
  - SessionDirectory: the compare-and-set claim script of
    SessionDirectoryService (src/unnamed/part_012).
  - OcppState: OcppStateService (src/src/ocpp/ocpp-state.service.ts).
  - Engine: OcppService.handleIncoming CALL path together with
    OcppResponseCache (src/src/ocpp/ocpp.service.ts, response-cache.service.ts).
  - SchemaValidator: OcppSchemaValidator.applyAdditionalPropertiesDefaults and
    compileSchemas (src/unnamed/part_009).
  - SessionControl: SessionControlConsumerService.forceDisconnect
    (src/unnamed/part_013).
  - CommandIdempotency: CommandIdempotencyService.claim
    (src/src/ocpp/session-directory.service.ts, second part).
-/

namespace OcppGateway

/-- JavaScript's toLowerCase, written over the character list so that
    concrete runs reduce in the kernel. -/
def jsToLower (s : String) : String :=
  String.mk (s.data.map Char.toLower)

/-- JavaScript's split on a comma, written over the character list. -/
def splitCommas (s : String) : List String :=
  (s.data.splitOn ',').map String.mk

/-- JavaScript's String.prototype.trim, written over the character list. -/
def jsTrim (s : String) : String :=
  String.mk ((s.data.dropWhile Char.isWhitespace).reverse.dropWhile Char.isWhitespace).reverse

/-- A JSON value. JavaScript's undefined is represented by Option none at the
    use sites (absent array index, absent object key), never by a Json value. -/
inductive Json where
  | null
  | bool (b : Bool)
  | num (n : Int)
  | str (s : String)
  | arr (elems : List Json)
  | obj (fields : List (String × Json))

namespace Json

/-- JavaScript truthiness of a JSON value: null, false, 0 and the empty string
    are falsy; every array and every object (even empty) is truthy. -/
def jsTruthy : Json → Bool
  | .null => false
  | .bool b => b
  | .num n => n != 0
  | .str s => s != ""
  | .arr _ => true
  | .obj _ => true

/-- Whether the JavaScript expression typeof v evaluates to the string
    "object": true for objects, arrays, and (the JS quirk) null. -/
def typeofIsObject : Json → Bool
  | .null => true
  | .arr _ => true
  | .obj _ => true
  | _ => false

/-- Whether typeof v is "string". -/
def isStr : Json → Bool
  | .str _ => true
  | _ => false

/-- Whether v is a JSON object (not an array, not null). -/
def isObj : Json → Bool
  | .obj _ => true
  | _ => false

/-- Whether typeof v is "number". -/
def isNum : Json → Bool
  | .num _ => true
  | _ => false

/-- The string payload, when v is a string (typeof v === "string"). -/
def asStr : Json → Option String
  | .str s => some s
  | _ => none

/-- The numeric payload, when v is a number. -/
def asNum : Json → Option Int
  | .num n => some n
  | _ => none

/-- First value stored under key k of an object's field list (JS property
    lookup; JSON objects have unique keys). -/
def lookupField (fields : List (String × Json)) (k : String) : Option Json :=
  (fields.find? (fun kv => kv.1 == k)).map (fun kv => kv.2)

end Json

/- ===== Envelope codec: src/src/ocpp/ocpp-envelope.ts ===== -/

/-- A parsed OCPP envelope (type OcppEnvelope of ocpp-envelope.ts). The CALL
    payload is message[3], which may be absent (undefined), hence Option. -/
inductive OcppEnvelope where
  | call (uniqueId action : String) (payload : Option Json)
  | callResult (uniqueId : String) (payload : Json)
  | callError (uniqueId errorCode errorDescription : String) (errorDetails : Json)

/-- EnvelopeParseError of ocpp-envelope.ts. -/
structure EnvelopeParseError where
  messageTypeId : Option Int := none
  uniqueId : Option String := none
  reason : String

/-- EnvelopeParseResult of ocpp-envelope.ts. -/
inductive EnvelopeParseResult where
  | ok (envelope : OcppEnvelope)
  | err (error : EnvelopeParseError)

/-- Whether the parse succeeded. -/
def EnvelopeParseResult.isOk : EnvelopeParseResult → Bool
  | .ok _ => true
  | .err _ => false

/-- parseEnvelope of ocpp-envelope.ts, translated clause by clause. Array
    indexing message[i] yields undefined when out of range, modeled by
    List.get? returning none; where the source only runs typeof checks that
    undefined fails alongside null, the index is defaulted to Json.null. -/
def parseEnvelope (message : Json) : EnvelopeParseResult :=
  match message with
  | .arr elems =>
    if elems.length < 3 then
      .err { reason := "Message array is too short"
             uniqueId := ((elems.get? 1).getD .null).asStr
             messageTypeId := ((elems.get? 0).getD .null).asNum }
    else
      let mt := (elems.get? 0).getD .null
      let uid := (elems.get? 1).getD .null
      match mt.asNum with
      | none => .err { reason := "Invalid message type id", uniqueId := uid.asStr }
      | some messageTypeId =>
        match uid.asStr with
        | none => .err { reason := "Missing uniqueId", messageTypeId := some messageTypeId }
        | some uniqueId =>
          if messageTypeId = 2 then
            let action := (elems.get? 2).getD .null
            match action.asStr with
            | none => .err { reason := "Missing action"
                             messageTypeId := some messageTypeId
                             uniqueId := some uniqueId }
            | some a => .ok (.call uniqueId a (elems.get? 3))
          else if messageTypeId = 3 then
            .ok (.callResult uniqueId ((elems.get? 2).getD .null))
          else if messageTypeId = 4 then
            let errorCode := (elems.get? 2).getD .null
            let errorDescription := (elems.get? 3).getD .null
            let errorDetails := elems.get? 4
            match errorCode.asStr, errorDescription.asStr, errorDetails with
            | some c, some d, some details =>
              if details.typeofIsObject then
                .ok (.callError uniqueId c d details)
              else
                .err { reason := "Invalid CallError payload"
                       messageTypeId := some messageTypeId
                       uniqueId := some uniqueId }
            | _, _, _ =>
              .err { reason := "Invalid CallError payload"
                     messageTypeId := some messageTypeId
                     uniqueId := some uniqueId }
          else
            .err { reason := "Unsupported message type " ++ toString messageTypeId
                   messageTypeId := some messageTypeId
                   uniqueId := some uniqueId }
  | _ => .err { reason := "Message must be a JSON array" }

/- ===== Session directory claim: SessionDirectoryService (src/unnamed/part_012) ===== -/

namespace SessionDirectory

/-- A session-directory entry stored under the key sessions: plus the charge
    point id (type SessionEntry of part_012). Entries written by the claim
    script always carry a numeric epoch and lastSeenAtMs; entries from older
    writers may lack them, which the script defaults with tonumber-or, hence
    the Option types. -/
structure SessionEntry where
  chargePointId : String
  ocppVersion : String
  nodeId : String
  connectedAtMs : Int
  lastSeenAtMs : Option Int
  epoch : Option Nat
deriving DecidableEq

/-- The triple returned by the Lua claim script together with the value the
    script leaves under the key. status is 1 for FRESH or REFRESHED, 2 for
    TAKEOVER, 0 for DENIED. -/
structure ClaimScriptResult where
  status : Nat
  ownerNodeId : String
  epoch : Nat
  stored : Option SessionEntry
deriving DecidableEq

/-- The compare-and-set claim script of SessionDirectoryService (claimScript,
    part_012 lines 66-108), one branch per Lua clause. A stored value that
    fails cjson.decode is treated by the script exactly like an absent key
    (fresh epoch-1 write), so stored = none covers both. Lua's
    tonumber(entry.epoch) or 1 keeps a present numeric epoch (0 is truthy in
    Lua), hence Option.getD. -/
def evalClaim (stored : Option SessionEntry) (nodeId : String) (nowMs staleMs : Int)
    (newEntry : SessionEntry) : ClaimScriptResult :=
  match stored with
  | none =>
    let w := { newEntry with epoch := some 1, lastSeenAtMs := some nowMs }
    { status := 1, ownerNodeId := "", epoch := 1, stored := some w }
  | some entry =>
    if entry.nodeId = nodeId then
      let e := entry.epoch.getD 1
      let w := { newEntry with epoch := some e, lastSeenAtMs := some nowMs }
      { status := 1, ownerNodeId := entry.nodeId, epoch := e, stored := some w }
    else
      let lastSeen := entry.lastSeenAtMs.getD 0
      if staleMs > 0 ∧ nowMs - lastSeen > staleMs then
        let e := entry.epoch.getD 0 + 1
        let w := { newEntry with epoch := some e, lastSeenAtMs := some nowMs }
        { status := 2, ownerNodeId := entry.nodeId, epoch := e, stored := some w }
      else
        { status := 0, ownerNodeId := entry.nodeId, epoch := entry.epoch.getD 0,
          stored := some entry }

/-- The SessionClaim returned to the caller (claim of part_012 lines 123-152):
    status 1 maps to accepted, status 2 to accepted plus the takeover flag,
    anything else to denied. -/
structure SessionClaim where
  accepted : Bool
  takeover : Bool
deriving DecidableEq

/-- SessionDirectoryService.claim, restricted to the outcome fields the
    directory claim decides; returns the claim outcome and the directory
    value after the call. -/
def claim (stored : Option SessionEntry) (nodeId : String) (nowMs staleMs : Int)
    (newEntry : SessionEntry) : SessionClaim × Option SessionEntry :=
  let r := evalClaim stored nodeId nowMs staleMs newEntry
  if r.status = 1 then ({ accepted := true, takeover := false }, r.stored)
  else if r.status = 2 then ({ accepted := true, takeover := true }, r.stored)
  else ({ accepted := false, takeover := false }, r.stored)

end SessionDirectory

/- ===== Per-charger transaction state: OcppStateService (ocpp-state.service.ts) ===== -/

namespace OcppState

/-- A value of the activeByConnector map, which holds either a numeric 1.6J
    transaction id or a string 2.x transaction id
    (Map of number to number-or-string in the source). -/
inductive TxRef where
  | v16 (id : Nat)
  | v2 (id : String)
deriving DecidableEq

/-- status field of TransactionState16. -/
inductive TxStatus16 where
  | active
  | stopped
deriving DecidableEq

/-- status field of TransactionState2. -/
inductive TxStatus2 where
  | active
  | ended
deriving DecidableEq

/-- The stop record of TransactionState16. -/
structure StopInfo where
  meterStop : Int
  timestamp : String
  idTag : Option String
  reason : Option String
deriving DecidableEq

/-- TransactionState16 of ocpp-state.service.ts. -/
structure Tx16 where
  transactionId : Nat
  connectorId : Nat
  idTag : String
  meterStart : Int
  timestamp : String
  status : TxStatus16
  stop : Option StopInfo
deriving DecidableEq

/-- TransactionState2 of ocpp-state.service.ts. -/
structure Tx2 where
  transactionId : String
  evseId : Option Nat
  connectorId : Option Nat
  idToken : Option String
  startedAt : Option String
  status : TxStatus2
  lastSeqNo : Option Int
deriving DecidableEq

/-- The OcppContext fields these operations read (chargePointId for error
    details, ocppVersion for the format-violation code). -/
structure OcppContext where
  chargePointId : String
  ocppVersion : String
deriving DecidableEq

/-- ChargePointState restricted to the fields that startTransaction16,
    stopTransaction16 and handleTransactionEvent read or write; the connector
    map and the boot and heartbeat timestamps are untouched by these three
    operations and are omitted. Maps are total functions into Option. -/
structure ChargePointState where
  transactionCounter : Nat
  transactions16 : Nat → Option Tx16
  transactions2 : String → Option Tx2
  activeByConnector : Nat → Option TxRef

/-- The state a fresh charge point gets in getState. -/
def emptyState : ChargePointState :=
  { transactionCounter := 0
    transactions16 := fun _ => none
    transactions2 := fun _ => none
    activeByConnector := fun _ => none }

/-- Map update (Map.set with some, Map.delete with none). -/
def upd {κ α : Type} [DecidableEq κ] (m : κ → Option α) (k : κ) (v : Option α) :
    κ → Option α :=
  fun i => if i = k then v else m i

/-- StateError of ocpp-state.service.ts; details is the record with the one
    chargePointId field built by stateViolation and formatViolation. -/
structure StateError where
  code : String
  description : String
  chargePointId : String
deriving DecidableEq

/-- OcppStateService.stateViolation. -/
def stateViolation (ctx : OcppContext) (message : String) : StateError :=
  { code := "OccurrenceConstraintViolation", description := message
    chargePointId := ctx.chargePointId }

/-- OcppStateService.formatViolation. -/
def formatViolation (ctx : OcppContext) (message : String) : StateError :=
  { code := if ctx.ocppVersion = "1.6J" then "FormationViolation" else "FormatViolation"
    description := message
    chargePointId := ctx.chargePointId }

/-- The StartTransaction (1.6J) payload fields the service reads. -/
structure StartPayload where
  connectorId : Nat
  idTag : String
  meterStart : Int
  timestamp : String
deriving DecidableEq

/-- StartTransactionResult. The source returns the raw activeByConnector
    value as transactionId on the reject path, which may be a 2.x string id,
    hence TxRef. idempotent defaults to false where the source omits it. -/
structure StartResult where
  transactionId : TxRef
  idTagStatus : String
  idempotent : Bool
  error : Option StateError
deriving DecidableEq

/-- OcppStateService.isSameStart. -/
def isSameStart (tx : Tx16) (p : StartPayload) : Bool :=
  tx.connectorId == p.connectorId && tx.idTag == p.idTag &&
  tx.meterStart == p.meterStart && tx.timestamp == p.timestamp

/-- The lookup transactions16.get(existingId as number) at line 126: a 2.x
    string id misses the number-keyed map. -/
def resolve16 (s : ChargePointState) : TxRef → Option Tx16
  | .v16 n => s.transactions16 n
  | .v2 _ => none

/-- OcppStateService.startTransaction16. The two rejection returns (existing
    transaction with differing fields, and an activeByConnector entry whose
    transaction record is missing, e.g. a 2.x string id) are the single
    source return at lines 134-138. -/
def startTransaction16 (ctx : OcppContext) (s : ChargePointState) (p : StartPayload) :
    StartResult × ChargePointState :=
  match s.activeByConnector p.connectorId with
  | some existingId =>
    match resolve16 s existingId with
    | some tx =>
      if isSameStart tx p then
        ({ transactionId := .v16 tx.transactionId, idTagStatus := "Accepted"
           idempotent := true, error := none }, s)
      else
        ({ transactionId := existingId, idTagStatus := "Rejected", idempotent := false
           error := some (stateViolation ctx "Connector already has an active transaction") }, s)
    | none =>
      ({ transactionId := existingId, idTagStatus := "Rejected", idempotent := false
         error := some (stateViolation ctx "Connector already has an active transaction") }, s)
  | none =>
    let transactionId := s.transactionCounter + 1
    let tx : Tx16 :=
      { transactionId := transactionId, connectorId := p.connectorId, idTag := p.idTag
        meterStart := p.meterStart, timestamp := p.timestamp
        status := .active, stop := none }
    ({ transactionId := .v16 transactionId, idTagStatus := "Accepted"
       idempotent := false, error := none },
     { s with transactionCounter := transactionId
              transactions16 := upd s.transactions16 transactionId (some tx)
              activeByConnector := upd s.activeByConnector p.connectorId (some (.v16 transactionId)) })

/-- The StopTransaction (1.6J) payload fields the service reads. -/
structure StopPayload where
  transactionId : Nat
  meterStop : Int
  timestamp : String
  idTag : Option String
  reason : Option String
deriving DecidableEq

/-- StopTransactionResult. -/
structure StopResult where
  idTagStatus : String
  idempotent : Bool
  error : Option StateError
deriving DecidableEq

/-- OcppStateService.stopTransaction16. -/
def stopTransaction16 (ctx : OcppContext) (s : ChargePointState) (p : StopPayload) :
    StopResult × ChargePointState :=
  match s.transactions16 p.transactionId with
  | none =>
    ({ idTagStatus := "Rejected", idempotent := false
       error := some (stateViolation ctx "Unknown transaction") }, s)
  | some tx =>
    if tx.status = .stopped then
      match tx.stop with
      | some st =>
        if st.meterStop == p.meterStop && st.timestamp == p.timestamp then
          ({ idTagStatus := "Accepted", idempotent := true, error := none }, s)
        else
          ({ idTagStatus := "Rejected", idempotent := false
             error := some (stateViolation ctx "Transaction already stopped") }, s)
      | none =>
        ({ idTagStatus := "Rejected", idempotent := false
           error := some (stateViolation ctx "Transaction already stopped") }, s)
    else
      let tx' := { tx with status := .stopped
                           stop := some { meterStop := p.meterStop, timestamp := p.timestamp
                                          idTag := p.idTag, reason := p.reason } }
      ({ idTagStatus := "Accepted", idempotent := false, error := none },
       { s with transactions16 := upd s.transactions16 p.transactionId (some tx')
                activeByConnector := upd s.activeByConnector tx.connectorId none })

/-- The TransactionEvent (2.x) payload, as delivered by the extractors of the
    source: transactionId is extractTransactionId (none when
    transactionInfo.transactionId is absent or falsy), evseId / connectorId are
    extractEvseId / extractConnectorId, idToken is extractIdToken. -/
structure TxEventPayload where
  eventType : String
  seqNo : Option Int
  transactionId : Option String
  evseId : Option Nat
  connectorId : Option Nat
  idToken : Option String
  timestamp : Option String
deriving DecidableEq

/-- TransactionEventResult. -/
structure TxEventResult where
  idTokenStatus : String
  idempotent : Bool
  error : Option StateError
deriving DecidableEq

/-- OcppStateService.handleTransactionEvent. The strict flag is dropped: for
    an unknown transactionId with a non-Started event the strict branch
    (lines 219-221) and the lenient fall-through (lines 248-250) return the
    same Unknown-transaction rejection without touching state. -/
def handleTransactionEvent (ctx : OcppContext) (s : ChargePointState) (p : TxEventPayload) :
    TxEventResult × ChargePointState :=
  let eventType := jsToLower p.eventType
  match p.transactionId with
  | none =>
    ({ idTokenStatus := "Rejected", idempotent := false
       error := some (formatViolation ctx "Missing transactionId") }, s)
  | some transactionId =>
    match s.transactions2 transactionId with
    | none =>
      if eventType = "started" then
        let tx : Tx2 :=
          { transactionId := transactionId, evseId := p.evseId, connectorId := p.connectorId
            idToken := p.idToken, startedAt := p.timestamp
            status := .active, lastSeqNo := p.seqNo }
        ({ idTokenStatus := "Accepted", idempotent := false, error := none },
         { s with transactions2 := upd s.transactions2 transactionId (some tx)
                  activeByConnector :=
                    match p.connectorId with
                    | some c => upd s.activeByConnector c (some (.v2 transactionId))
                    | none => s.activeByConnector })
      else
        ({ idTokenStatus := "Rejected", idempotent := false
           error := some (stateViolation ctx "Unknown transaction") }, s)
    | some existing =>
      let seqNoIsStale : Bool :=
        match p.seqNo, existing.lastSeqNo with
        | some n, some m => decide (n ≤ m)
        | _, _ => false
      if seqNoIsStale then
        ({ idTokenStatus := "Accepted", idempotent := true, error := none }, s)
      else if eventType = "started" then
        ({ idTokenStatus := "Accepted", idempotent := true, error := none }, s)
      else
        let tx' := { existing with
                     lastSeqNo := match p.seqNo with
                                  | some n => some n
                                  | none => existing.lastSeqNo }
        if eventType = "ended" then
          let tx2 := { tx' with status := TxStatus2.ended }
          ({ idTokenStatus := "Accepted", idempotent := false, error := none },
           { s with transactions2 := upd s.transactions2 transactionId (some tx2)
                    activeByConnector :=
                      match existing.connectorId with
                      | some c => upd s.activeByConnector c none
                      | none => s.activeByConnector })
        else
          ({ idTokenStatus := "Accepted", idempotent := false, error := none },
           { s with transactions2 := upd s.transactions2 transactionId (some tx') })

/-- States reachable from the empty per-charger state by any sequence of the
    three transaction operations. -/
inductive Reachable : ChargePointState → Prop where
  | empty : Reachable emptyState
  | start (ctx : OcppContext) (p : StartPayload) {s : ChargePointState} :
      Reachable s → Reachable (startTransaction16 ctx s p).2
  | stop (ctx : OcppContext) (p : StopPayload) {s : ChargePointState} :
      Reachable s → Reachable (stopTransaction16 ctx s p).2
  | event (ctx : OcppContext) (p : TxEventPayload) {s : ChargePointState} :
      Reachable s → Reachable (handleTransactionEvent ctx s p).2

/-- States reachable using the 1.6J operations only. -/
inductive Reachable16 : ChargePointState → Prop where
  | empty : Reachable16 emptyState
  | start (ctx : OcppContext) (p : StartPayload) {s : ChargePointState} :
      Reachable16 s → Reachable16 (startTransaction16 ctx s p).2
  | stop (ctx : OcppContext) (p : StopPayload) {s : ChargePointState} :
      Reachable16 s → Reachable16 (stopTransaction16 ctx s p).2

/-- Transaction r is active on connector c in state s: a 1.6J record with
    status active and that connectorId, or a 2.x record with status active
    and that connectorId. -/
def ActiveOn (s : ChargePointState) (c : Nat) (r : TxRef) : Prop :=
  match r with
  | .v16 i => ∃ tx, s.transactions16 i = some tx ∧ tx.connectorId = c ∧ tx.status = .active
  | .v2 id => ∃ tx, s.transactions2 id = some tx ∧ tx.connectorId = some c ∧ tx.status = .active

/-- Each connector has at most one active transaction. -/
def AtMostOneActive (s : ChargePointState) : Prop :=
  ∀ c r₁ r₂, ActiveOn s c r₁ → ActiveOn s c r₂ → r₁ = r₂

/-- activeByConnector maps a connector to a transaction only while that
    transaction is the single active one on the connector. -/
def ActiveMapCorrect (s : ChargePointState) : Prop :=
  ∀ c r, s.activeByConnector c = some r →
    ActiveOn s c r ∧ ∀ r', ActiveOn s c r' → r' = r

/-- The inductive invariant of the 1.6J flows: stored 1.6J records are keyed
    by their own id and never exceed the counter; an active record is the one
    its connector maps to; every activeByConnector entry resolves to an
    active 1.6J record on that connector; and no 2.x records exist. -/
def Inv16 (s : ChargePointState) : Prop :=
  (∀ i tx, s.transactions16 i = some tx → tx.transactionId = i ∧ i ≤ s.transactionCounter) ∧
  (∀ i tx, s.transactions16 i = some tx → tx.status = .active →
     s.activeByConnector tx.connectorId = some (.v16 i)) ∧
  (∀ c r, s.activeByConnector c = some r →
     ∃ i tx, r = .v16 i ∧ s.transactions16 i = some tx ∧ tx.connectorId = c ∧
       tx.status = .active) ∧
  (∀ id, s.transactions2 id = none)

/-- A context for concrete runs. -/
def cexCtx : OcppContext :=
  { chargePointId := "CP-1", ocppVersion := "2.0.1" }

/-- TransactionEvent Started for 2.x transaction A on connector 1. -/
def cexStartedA : TxEventPayload :=
  { eventType := "Started", seqNo := some 0, transactionId := some "A"
    evseId := none, connectorId := some 1, idToken := none, timestamp := some "t0" }

/-- TransactionEvent Started for 2.x transaction B on the same connector 1. -/
def cexStartedB : TxEventPayload :=
  { eventType := "Started", seqNo := some 0, transactionId := some "B"
    evseId := none, connectorId := some 1, idToken := none, timestamp := some "t1" }

/-- The state after the two Started events for A and B. -/
def cexTwoStartedState : ChargePointState :=
  (handleTransactionEvent cexCtx
    (handleTransactionEvent cexCtx emptyState cexStartedA).2 cexStartedB).2

/-- TransactionEvent Started for transaction T-1 with seqNo 0. -/
def cexSeqStart : TxEventPayload :=
  { eventType := "Started", seqNo := some 0, transactionId := some "T-1"
    evseId := none, connectorId := some 1, idToken := none, timestamp := some "t0" }

/-- A repeated Started for T-1 carrying the larger seqNo 5. -/
def cexSeqRepeat : TxEventPayload :=
  { eventType := "Started", seqNo := some 5, transactionId := some "T-1"
    evseId := none, connectorId := some 1, idToken := none, timestamp := some "t1" }

/-- The state after the first Started for T-1. -/
def cexSeqState : ChargePointState :=
  (handleTransactionEvent cexCtx emptyState cexSeqStart).2

/-- A concrete 1.6J StartTransaction payload. -/
def cexStartPayload : StartPayload :=
  { connectorId := 1, idTag := "TAG-1", meterStart := 100
    timestamp := "2024-01-01T00:00:00Z" }

/-- A different StartTransaction payload for the same connector. -/
def cexStartOther : StartPayload :=
  { connectorId := 1, idTag := "TAG-2", meterStart := 0
    timestamp := "2024-01-01T00:05:00Z" }

end OcppState

/- ===== Message engine CALL path with response cache =====
   OcppService.handleIncoming (ocpp.service.ts lines 79-227) and
   OcppResponseCache (response-cache.service.ts). -/

namespace Engine

/-- A reply the engine emits: the output of buildCallResult or
    buildCallError of ocpp-envelope.ts. -/
inductive Reply where
  | callResult (uniqueId : String) (payload : Json)
  | callError (uniqueId errorCode errorDescription : String) (errorDetails : Json)

/-- The error branch of an adapter's handleCall result. -/
structure AdapterError where
  code : String
  description : String
  details : Option Json

/-- An adapter's handleCall result. -/
structure AdapterResult where
  response : Option Json
  error : Option AdapterError

/-- A validator verdict ({valid, errors} of OcppSchemaValidator). -/
structure Validation where
  valid : Bool
  errors : List String

/-- The services the engine consults for a CALL: the schema validator and the
    version adapter, abstracted as functions of (version, action, payload). -/
structure EngineDeps where
  hasSchema : String → String → Bool
  validate : String → String → Option Json → Validation
  adapterHandleCall : String → Option Json → OcppState.OcppContext → AdapterResult
  hasResponseSchema : String → String → Bool
  validateResponse : String → String → Json → Validation

/-- OcppResponseCache restricted to its in-process map tier; the optional
    shared KV tier and the expiry clock are omitted (entries here are the
    unexpired ones). ttlSeconds at most 0 disables the cache entirely, as in
    the source. -/
structure ResponseCache where
  ttlSeconds : Int
  entries : List (String × Reply)

/-- OcppResponseCache.buildKey. -/
def buildKey (chargePointId uniqueId : String) : String :=
  chargePointId ++ ":" ++ uniqueId

/-- OcppResponseCache.get. -/
def cacheGet (c : ResponseCache) (ctx : OcppState.OcppContext) (uniqueId : String) :
    Option Reply :=
  if c.ttlSeconds ≤ 0 then none
  else (c.entries.find? (fun kv => kv.1 == buildKey ctx.chargePointId uniqueId)).map
    (fun kv => kv.2)

/-- OcppResponseCache.set: Map.set, modeled by prepending (find? returns the
    newest entry for a key). -/
def cacheSet (c : ResponseCache) (ctx : OcppState.OcppContext) (uniqueId : String)
    (response : Reply) : ResponseCache :=
  if c.ttlSeconds ≤ 0 then c
  else { c with entries := (buildKey ctx.chargePointId uniqueId, response) :: c.entries }

/-- The error details object for a validation failure:
    the record with key errors holding the validator messages. -/
def errorsDetails (errors : List String) : Json :=
  .obj [("errors", .arr (errors.map Json.str))]

/-- The CALL branch of OcppService.handleIncoming (lines 79-227), for a frame
    already parsed as a CALL envelope. Returns the reply and the response
    cache after the call. -/
def handleCall (deps : EngineDeps) (cache : ResponseCache) (ctx : OcppState.OcppContext)
    (uniqueId action : String) (payload : Option Json) : Reply × ResponseCache :=
  match cacheGet cache ctx uniqueId with
  | some cached => (cached, cache)
  | none =>
    if ¬ deps.hasSchema ctx.ocppVersion action then
      let e := Reply.callError uniqueId "NotImplemented"
        ("Action " ++ action ++ " not supported") (.obj [])
      (e, cacheSet cache ctx uniqueId e)
    else
      let validation := deps.validate ctx.ocppVersion action payload
      if ¬ validation.valid then
        let code := if ctx.ocppVersion = "1.6J" then "FormationViolation" else "FormatViolation"
        let e := Reply.callError uniqueId code "Payload validation failed"
          (errorsDetails validation.errors)
        (e, cacheSet cache ctx uniqueId e)
      else
        let result := deps.adapterHandleCall action payload ctx
        match result.error with
        | some err =>
          let e := Reply.callError uniqueId err.code err.description
            (err.details.getD (.obj []))
          (e, cacheSet cache ctx uniqueId e)
        | none =>
          if ¬ deps.hasResponseSchema ctx.ocppVersion action then
            let e := Reply.callError uniqueId "InternalError"
              ("No response schema for " ++ action) (.obj [])
            (e, cacheSet cache ctx uniqueId e)
          else
            let responsePayload :=
              match result.response with
              | some j => if j.jsTruthy then j else Json.obj []
              | none => Json.obj []
            let responseValidation := deps.validateResponse ctx.ocppVersion action responsePayload
            if ¬ responseValidation.valid then
              let e := Reply.callError uniqueId "InternalError" "Response validation failed"
                (errorsDetails responseValidation.errors)
              (e, cacheSet cache ctx uniqueId e)
            else
              let r := Reply.callResult uniqueId responsePayload
              (r, cacheSet cache ctx uniqueId r)

/-- A concrete cached reply for witness runs. -/
def cexReply : Reply := .callResult "m1" (.obj [])

/-- A cache already holding the reply for message m1 of charge point CP-1. -/
def cexHitCache : ResponseCache :=
  { ttlSeconds := 300, entries := [("CP-1:m1", cexReply)] }

/-- An empty enabled cache. -/
def cexMissCache : ResponseCache :=
  { ttlSeconds := 300, entries := [] }

/-- A concrete engine dependency bundle for witness runs: no schema is
    registered, so a miss produces a NotImplemented CALLERROR. -/
def trivialDeps : EngineDeps :=
  { hasSchema := fun _ _ => false
    validate := fun _ _ _ => { valid := false, errors := [] }
    adapterHandleCall := fun _ _ _ => { response := none, error := none }
    hasResponseSchema := fun _ _ => false
    validateResponse := fun _ _ _ => { valid := false, errors := [] } }

end Engine

/- ===== Schema registration: OcppSchemaValidator (src/unnamed/part_009) ===== -/

namespace SchemaValidator

/-- How the schema walker treats the value stored under a key of a schema
    node: mapVals for keys whose sub-schemas are the values of a nested
    object (Object.values(child).forEach(visit)); each for keys holding a
    list of sub-schemas (child.forEach(visit)); direct for keys holding one
    sub-schema (visit(child)); skip for every other key. -/
inductive DescentKind where
  | mapVals
  | each
  | direct
  | skip
deriving DecidableEq

/-- The key dispatch of the visit closure inside
    applyAdditionalPropertiesDefaults (part_009 lines 205-261), one arm per
    if clause in source order. -/
def codeKeyKind : String → DescentKind
  | "properties" => .mapVals
  | "patternProperties" => .mapVals
  | "additionalProperties" => .direct
  | "items" => .direct
  | "prefixItems" => .direct
  | "contains" => .direct
  | "anyOf" => .each
  | "oneOf" => .each
  | "allOf" => .each
  | "not" => .direct
  | "if" => .direct
  | "then" => .direct
  | "else" => .direct
  | "definitions" => .mapVals
  | "$defs" => .mapVals
  | "dependentSchemas" => .mapVals
  | "propertyNames" => .direct
  | "unevaluatedProperties" => .direct
  | "unevaluatedItems" => .direct
  | _ => .skip

/-- Whether a list element equals the string literal "object"
    (node.type.includes("object") compares with strict equality). -/
def isTypeObjectLiteral : Json → Bool
  | .str s => s == "object"
  | _ => false

/-- The hasObjectShape test of the visit closure (lines 195-199): type is
    "object", or type is an array containing "object", or properties or
    patternProperties is truthy. -/
def hasObjectShape (fields : List (String × Json)) : Bool :=
  (match Json.lookupField fields "type" with
   | some (.str s) => s == "object"
   | _ => false) ||
  (match Json.lookupField fields "type" with
   | some (.arr es) => es.any isTypeObjectLiteral
   | _ => false) ||
  Json.jsTruthy ((Json.lookupField fields "properties").getD .null) ||
  Json.jsTruthy ((Json.lookupField fields "patternProperties").getD .null)

/-- Lines 201-203: an object-shaped node with no additionalProperties key
    gets additionalProperties set to false (JS adds the property last). -/
def setAdditionalPropertiesDefault (fields : List (String × Json)) :
    List (String × Json) :=
  if hasObjectShape fields && (Json.lookupField fields "additionalProperties").isNone then
    fields ++ [("additionalProperties", .bool false)]
  else fields

/- The recursive walk. The source mutates: it sets the additionalProperties
   default on a node and then recurses into the node's children. Here the
   children are rewritten first and the default applied after, which yields
   the same object: the recursion never adds or removes keys of a node, never
   rewrites the skip key type, preserves the truthiness of the properties and
   patternProperties values (objects map to objects, arrays to arrays,
   scalars are untouched), so the hasObjectShape test and the
   additionalProperties-absence test agree before and after the recursion,
   and the inserted literal false is inert under the walk.
   The truthiness guards of the source (if (node.items) ...) are dropped:
   every falsy value is a scalar or null, on which each descent mode is the
   identity. A truthy non-array under anyOf, oneOf or allOf makes the source
   throw a TypeError (plain objects have no forEach); such malformed schemas
   are modeled as left unchanged. -/

mutual

/-- The visit closure of applyAdditionalPropertiesDefaults, parameterized by
    the key dispatch: arrays are visited element-wise (line 190-193), objects
    get the additionalProperties default and a per-key descent, scalars are
    untouched (line 189). -/
def visitSchema (kind : String → DescentKind) : Json → Json
  | .arr es => .arr (visitElems kind es)
  | .obj fs => .obj (setAdditionalPropertiesDefault (visitNodeFields kind fs))
  | j => j

/-- node.forEach(visit) over a list of schemas. -/
def visitElems (kind : String → DescentKind) : List Json → List Json
  | [] => []
  | j :: rest => visitSchema kind j :: visitElems kind rest

/-- The per-key descent over the fields of a schema node. -/
def visitNodeFields (kind : String → DescentKind) :
    List (String × Json) → List (String × Json)
  | [] => []
  | (k, v) :: rest =>
    (k, match kind k with
        | .mapVals =>
          match v with
          | .obj fs2 => Json.obj (visitOwnValues kind fs2)
          | .arr es2 => Json.arr (visitElems kind es2)
          | j => j
        | .each =>
          match v with
          | .arr es2 => Json.arr (visitElems kind es2)
          | j => j
        | .direct => visitSchema kind v
        | .skip => v) :: visitNodeFields kind rest

/-- Object.values(child).forEach(visit): each value of the child object is a
    sub-schema; the child object itself is not a schema node. -/
def visitOwnValues (kind : String → DescentKind) :
    List (String × Json) → List (String × Json)
  | [] => []
  | (k, v) :: rest => (k, visitSchema kind v) :: visitOwnValues kind rest

end

/-- OcppSchemaValidator.applyAdditionalPropertiesDefaults (lines 182-266):
    the identity for an allow-listed action, the recursive tightening
    otherwise. cloneSchema is the identity of a pure value. -/
def applyAdditionalPropertiesDefaults (allowAdditional : Bool) (schema : Json) : Json :=
  if allowAdditional then schema else visitSchema codeKeyKind schema

/-- The schema compileSchemas registers with Ajv for one action
    (lines 172-180). -/
def registeredSchema (allowAdditionalActions : List String) (action : String)
    (schema : Json) : Json :=
  applyAdditionalPropertiesDefaults (allowAdditionalActions.contains action) schema

/-- The allow-list parsing of the constructor (lines 68-76): split on commas,
    trim, drop empties. -/
def parseAllowList (raw : String) : List String :=
  ((splitCommas raw).map jsTrim).filter (fun s => s != "")

/-- The default allow-list: OCPP_SCHEMA_ALLOW_ADDITIONAL_ACTIONS unset falls
    back to the literal DataTransfer. -/
def defaultAllowList : List String :=
  parseAllowList "DataTransfer"

/-- Modelled from the spec: the key dispatch named by the claim sentence,
    which descends through properties, patternProperties, items, prefixItems,
    allOf/anyOf/oneOf/not, if/then/else, $defs/definitions, dependentSchemas,
    propertyNames and unevaluatedProperties/Items — and through nothing
    else. -/
def claimKeyKind (k : String) : DescentKind :=
  if k ∈ ["properties", "patternProperties", "$defs", "definitions",
          "dependentSchemas"] then .mapVals
  else if k ∈ ["allOf", "anyOf", "oneOf"] then .each
  else if k ∈ ["items", "prefixItems", "not", "if", "then", "else", "propertyNames",
               "unevaluatedProperties", "unevaluatedItems"] then .direct
  else .skip

/-- The claim's key list amended with the two descents the source also
    performs: contains, and additionalProperties when it is itself a
    sub-schema. -/
def amendedKeyKind (k : String) : DescentKind :=
  if k ∈ ["properties", "patternProperties", "$defs", "definitions",
          "dependentSchemas"] then .mapVals
  else if k ∈ ["allOf", "anyOf", "oneOf"] then .each
  else if k ∈ ["items", "prefixItems", "not", "if", "then", "else", "propertyNames",
               "unevaluatedProperties", "unevaluatedItems", "contains",
               "additionalProperties"] then .direct
  else .skip

/-- A schema whose only object-shaped sub-schema sits under contains, a key
    the claim's recursion list omits. -/
def cexSchema : Json :=
  .obj [("contains", .obj [("type", .str "object")])]

end SchemaValidator

/- ===== Session control consumer: SessionControlConsumerService (part_013) ===== -/

namespace SessionControl

/-- The ConnectionMeta fields forceDisconnect reads (part_011): sessionEpoch
    is optional. -/
structure ConnectionMeta where
  sessionEpoch : Option Int
deriving DecidableEq

/-- The SessionControlMessage fields forceDisconnect reads: newEpoch is
    optional. -/
structure ForceDisconnectMessage where
  chargePointId : String
  newEpoch : Option Int
deriving DecidableEq

/-- JS truthiness of an optional number: absent, 0 (and NaN, excluded from
    the Int model) are falsy. -/
def truthyNum : Option Int → Bool
  | none => false
  | some n => n != 0

/-- Whether SessionControlConsumerService.forceDisconnect (part_013 lines
    52-64) closes the local socket: there is a socket for the charge point
    id, and the guard payload.newEpoch truthy, meta sessionEpoch truthy and
    sessionEpoch at least newEpoch does not hold. meta is none when the
    socket has no registered metadata. -/
def forceDisconnectCloses (socketExists : Bool) (meta : Option ConnectionMeta)
    (payload : ForceDisconnectMessage) : Bool :=
  if ¬ socketExists then false
  else if truthyNum payload.newEpoch &&
          truthyNum (meta.bind (fun m => m.sessionEpoch)) &&
          (match (meta.bind (fun m => m.sessionEpoch)), payload.newEpoch with
           | some l, some n => decide (l ≥ n)
           | _, _ => false) then false
  else true

end SessionControl

/- ===== Command idempotency: CommandIdempotencyService
   (src/src/ocpp/session-directory.service.ts, second file) ===== -/

namespace CommandIdempotency

/-- The outcome of the KV round-trip redis.setIfNotExists: ok true when the
    key was absent and is now set, ok false when it already existed, error
    when the call threw. -/
inductive KvOutcome where
  | ok (setNow : Bool)
  | threw
deriving DecidableEq

/-- CommandIdempotencyService.claim (lines 88-98): commandId empty or a
    non-positive TTL short-circuit to true; a thrown KV call is caught and
    yields true; otherwise the KV result is returned. -/
def claim (commandId : String) (ttlSeconds : Int) (kv : KvOutcome) : Bool :=
  if commandId == "" || decide (ttlSeconds ≤ 0) then true
  else
    match kv with
    | .ok setNow => setNow
    | .threw => true

end CommandIdempotency

/- ========================= Theorems ========================= -/

/-- Claim C10: the command-idempotency claim fails open — it returns true
    whenever the commandId is empty, the configured TTL is not positive, or
    the KV set-if-absent call throws; it returns false only when the KV
    round-trip succeeds and reports the key already present. -/
theorem commandIdempotency_fails_open (commandId : String) (ttlSeconds : Int)
    (kv : CommandIdempotency.KvOutcome) :
    CommandIdempotency.claim commandId ttlSeconds kv = false ↔
      commandId ≠ "" ∧ 0 < ttlSeconds ∧ kv = .ok false := by
  cases kv with
  | ok setNow =>
    cases setNow <;> simp [CommandIdempotency.claim]
  | threw =>
    simp [CommandIdempotency.claim]

/-- Witness for C10 at a concrete duplicate command. -/
theorem commandIdempotency_fails_open_witness :
    CommandIdempotency.claim "cmd-1" 86400 (.ok false) = false :=
  (commandIdempotency_fails_open "cmd-1" 86400 (.ok false)).mpr
    ⟨by decide, by decide, rfl⟩

/-- Claim C9, counterexample: with a local sessionEpoch of 5 and a
    ForceDisconnect carrying newEpoch 0 the local epoch is greater than or
    equal to newEpoch (which is zero, a case the claim covers), yet the
    consumer closes the socket, because a zero newEpoch is falsy and the
    skip guard requires both epochs truthy. -/
theorem forceDisconnect_closes_despite_ge_epoch :
    SessionControl.forceDisconnectCloses true (some { sessionEpoch := some 5 })
      { chargePointId := "CP-1", newEpoch := some 0 } = true ∧ (0 : Int) ≤ 5 := by
  decide

/-- Claim C9, amended: the consumer skips the close only when newEpoch is
    present and nonzero, the local sessionEpoch is present and nonzero, and
    the local sessionEpoch is at least newEpoch; in every other case
    (including an absent or zero value on either side) the socket with the
    message's charge-point id is closed. -/
theorem forceDisconnect_closes_iff (socketExists : Bool)
    (meta : Option SessionControl.ConnectionMeta)
    (payload : SessionControl.ForceDisconnectMessage) :
    SessionControl.forceDisconnectCloses socketExists meta payload = true ↔
      socketExists = true ∧
      ¬(∃ l n, meta.bind (fun m => m.sessionEpoch) = some l ∧
          payload.newEpoch = some n ∧ l ≠ 0 ∧ n ≠ 0 ∧ n ≤ l) := by
  cases socketExists with
  | false => simp [SessionControl.forceDisconnectCloses]
  | true =>
    rcases meta with _ | m
    · simp [SessionControl.forceDisconnectCloses, SessionControl.truthyNum]
    · rcases hm : m.sessionEpoch with _ | l <;>
        rcases hp : payload.newEpoch with _ | n <;>
        simp [SessionControl.forceDisconnectCloses, SessionControl.truthyNum, hm, hp] <;>
        omega

/-- Witness for C9 (amended) at a concrete takeover echo: local epoch 1,
    incoming newEpoch 2, so the socket is closed. -/
theorem forceDisconnect_closes_iff_witness :
    SessionControl.forceDisconnectCloses true (some { sessionEpoch := some 1 })
      { chargePointId := "CP-7", newEpoch := some 2 } = true :=
  (forceDisconnect_closes_iff true (some { sessionEpoch := some 1 })
      { chargePointId := "CP-7", newEpoch := some 2 }).mpr
    ⟨rfl, by rintro ⟨l, n, hl, hn, _, _, hle⟩; simp at hl hn; omega⟩

/-- Claim C8, counterexample: the 5-element CALLERROR frame whose fifth
    element is null parses successfully (typeof null is "object" in JS),
    even though null is not a JSON object, contradicting the claim that such
    an input fails with a parse error. -/
theorem parseEnvelope_accepts_null_errorDetails :
    parseEnvelope (.arr [.num 4, .str "u", .str "c", .str "d", .null]) =
      .ok (.callError "u" "c" "d" .null) ∧ Json.isObj .null = false := by
  exact ⟨rfl, rfl⟩

/-- Claim C8, amended: a 5-element array starting with the literal 4 parses
    successfully exactly when uniqueId, errorCode and errorDescription are
    strings and the fifth element has JS typeof "object" — that is, it is an
    object, an array, or null; null and arrays are accepted as errorDetails
    and produce a CALLERROR envelope. -/
theorem parseEnvelope_callError_iff (a b c d : Json) :
    (parseEnvelope (.arr [.num 4, a, b, c, d])).isOk = true ↔
      a.isStr = true ∧ b.isStr = true ∧ c.isStr = true ∧ d.typeofIsObject = true := by
  cases a with
  | str u =>
    cases b with
    | str v =>
      cases c with
      | str w =>
        cases d <;>
          simp [parseEnvelope, Json.asStr, Json.asNum, Json.isStr, Json.typeofIsObject,
            EnvelopeParseResult.isOk]
      | null =>
        simp [parseEnvelope, Json.asStr, Json.asNum, Json.isStr, EnvelopeParseResult.isOk]
      | bool x =>
        simp [parseEnvelope, Json.asStr, Json.asNum, Json.isStr, EnvelopeParseResult.isOk]
      | num x =>
        simp [parseEnvelope, Json.asStr, Json.asNum, Json.isStr, EnvelopeParseResult.isOk]
      | arr x =>
        simp [parseEnvelope, Json.asStr, Json.asNum, Json.isStr, EnvelopeParseResult.isOk]
      | obj x =>
        simp [parseEnvelope, Json.asStr, Json.asNum, Json.isStr, EnvelopeParseResult.isOk]
    | null =>
      simp [parseEnvelope, Json.asStr, Json.asNum, Json.isStr, EnvelopeParseResult.isOk]
    | bool x =>
      simp [parseEnvelope, Json.asStr, Json.asNum, Json.isStr, EnvelopeParseResult.isOk]
    | num x =>
      simp [parseEnvelope, Json.asStr, Json.asNum, Json.isStr, EnvelopeParseResult.isOk]
    | arr x =>
      simp [parseEnvelope, Json.asStr, Json.asNum, Json.isStr, EnvelopeParseResult.isOk]
    | obj x =>
      simp [parseEnvelope, Json.asStr, Json.asNum, Json.isStr, EnvelopeParseResult.isOk]
  | null =>
    simp [parseEnvelope, Json.asStr, Json.asNum, Json.isStr, EnvelopeParseResult.isOk]
  | bool x =>
    simp [parseEnvelope, Json.asStr, Json.asNum, Json.isStr, EnvelopeParseResult.isOk]
  | num x =>
    simp [parseEnvelope, Json.asStr, Json.asNum, Json.isStr, EnvelopeParseResult.isOk]
  | arr x =>
    simp [parseEnvelope, Json.asStr, Json.asNum, Json.isStr, EnvelopeParseResult.isOk]
  | obj x =>
    simp [parseEnvelope, Json.asStr, Json.asNum, Json.isStr, EnvelopeParseResult.isOk]

/-- Witness for C8 (amended): a CALLERROR frame with an empty-object
    errorDetails parses successfully. -/
theorem parseEnvelope_callError_iff_witness :
    (parseEnvelope (.arr [.num 4, .str "u", .str "c", .str "d", .obj []])).isOk = true :=
  (parseEnvelope_callError_iff (.str "u") (.str "c") (.str "d") (.obj [])).mpr
    ⟨rfl, rfl, rfl, rfl⟩

/-- Claim C1: the session-directory claim writes a fresh epoch-1 entry and
    accepts when nothing is stored; rewrites the entry keeping the stored
    epoch and accepts when the stored owner is the claiming node; rewrites
    with epoch + 1, accepts and flags takeover when staleness is enabled and
    the stored entry is stale; otherwise denies and leaves the entry
    unchanged. Consequently the stored epoch never decreases across claims
    and strictly grows on takeover. -/
theorem sessionDirectory_claim_cases (stored : Option SessionDirectory.SessionEntry)
    (nodeId : String) (nowMs staleMs : Int) (newEntry : SessionDirectory.SessionEntry) :
    (stored = none →
      (SessionDirectory.claim stored nodeId nowMs staleMs newEntry).1.accepted = true ∧
      (SessionDirectory.claim stored nodeId nowMs staleMs newEntry).1.takeover = false ∧
      (SessionDirectory.claim stored nodeId nowMs staleMs newEntry).2 =
        some { newEntry with epoch := some 1, lastSeenAtMs := some nowMs }) ∧
    (∀ e k, stored = some e → e.nodeId = nodeId → e.epoch = some k →
      (SessionDirectory.claim stored nodeId nowMs staleMs newEntry).1.accepted = true ∧
      (SessionDirectory.claim stored nodeId nowMs staleMs newEntry).1.takeover = false ∧
      (SessionDirectory.claim stored nodeId nowMs staleMs newEntry).2 =
        some { newEntry with epoch := some k, lastSeenAtMs := some nowMs }) ∧
    (∀ e k, stored = some e → e.nodeId ≠ nodeId → 0 < staleMs →
      nowMs - e.lastSeenAtMs.getD 0 > staleMs → e.epoch = some k →
      (SessionDirectory.claim stored nodeId nowMs staleMs newEntry).1.accepted = true ∧
      (SessionDirectory.claim stored nodeId nowMs staleMs newEntry).1.takeover = true ∧
      (SessionDirectory.claim stored nodeId nowMs staleMs newEntry).2 =
        some { newEntry with epoch := some (k + 1), lastSeenAtMs := some nowMs }) ∧
    (∀ e, stored = some e → e.nodeId ≠ nodeId →
      ¬(0 < staleMs ∧ nowMs - e.lastSeenAtMs.getD 0 > staleMs) →
      (SessionDirectory.claim stored nodeId nowMs staleMs newEntry).1.accepted = false ∧
      (SessionDirectory.claim stored nodeId nowMs staleMs newEntry).2 = stored) ∧
    (∀ e w, stored = some e →
      (SessionDirectory.claim stored nodeId nowMs staleMs newEntry).2 = some w →
      e.epoch.getD 0 ≤ w.epoch.getD 0) ∧
    (∀ e w, stored = some e →
      (SessionDirectory.claim stored nodeId nowMs staleMs newEntry).2 = some w →
      (SessionDirectory.claim stored nodeId nowMs staleMs newEntry).1.takeover = true →
      e.epoch.getD 0 < w.epoch.getD 0) := by
  refine ⟨?_, ?_, ?_, ?_, ?_, ?_⟩
  · rintro rfl
    simp [SessionDirectory.claim, SessionDirectory.evalClaim]
  · rintro e k rfl hn hk
    simp [SessionDirectory.claim, SessionDirectory.evalClaim, hn, hk]
  · rintro e k rfl hn hs hst hk
    simp [SessionDirectory.claim, SessionDirectory.evalClaim, hn, hs, hst, hk]
  · rintro e rfl hn hc
    simp [SessionDirectory.claim, SessionDirectory.evalClaim, hn, hc]
  · rintro e w rfl hw
    by_cases h1 : e.nodeId = nodeId
    · simp [SessionDirectory.claim, SessionDirectory.evalClaim, h1] at hw
      subst hw
      cases e.epoch <;> simp
    · by_cases h2 : 0 < staleMs ∧ nowMs - e.lastSeenAtMs.getD 0 > staleMs
      · simp [SessionDirectory.claim, SessionDirectory.evalClaim, h1, h2.1, h2.2] at hw
        subst hw
        cases e.epoch <;> simp
      · simp [SessionDirectory.claim, SessionDirectory.evalClaim, h1, h2] at hw
        subst hw
        exact le_refl _
  · rintro e w rfl hw ht
    by_cases h1 : e.nodeId = nodeId
    · simp [SessionDirectory.claim, SessionDirectory.evalClaim, h1] at ht
    · by_cases h2 : 0 < staleMs ∧ nowMs - e.lastSeenAtMs.getD 0 > staleMs
      · simp [SessionDirectory.claim, SessionDirectory.evalClaim, h1, h2.1, h2.2] at hw
        subst hw
        cases e.epoch <;> simp
      · simp [SessionDirectory.claim, SessionDirectory.evalClaim, h1, h2] at ht

/-- Witness for C1: a concrete stale takeover (stored epoch 3, foreign
    owner, staleness window exceeded) is accepted, flagged takeover, and
    stores epoch 4; plus a concrete fresh claim stores epoch 1. -/
theorem sessionDirectory_claim_cases_witness :
    (SessionDirectory.claim
      (some { chargePointId := "CP-7", ocppVersion := "1.6J", nodeId := "node-a"
              connectedAtMs := 0, lastSeenAtMs := some 0, epoch := some 3 })
      "node-b" 10000 5000
      { chargePointId := "CP-7", ocppVersion := "1.6J", nodeId := "node-b"
        connectedAtMs := 10000, lastSeenAtMs := some 10000, epoch := some 0 }).1.takeover
      = true ∧
    (SessionDirectory.claim none "node-a" 0 0
      { chargePointId := "CP-1", ocppVersion := "1.6J", nodeId := "node-a"
        connectedAtMs := 0, lastSeenAtMs := some 0, epoch := some 0 }).2 =
      some { chargePointId := "CP-1", ocppVersion := "1.6J", nodeId := "node-a"
             connectedAtMs := 0, lastSeenAtMs := some 0, epoch := some 1 } := by
  constructor
  · exact ((sessionDirectory_claim_cases
      (some { chargePointId := "CP-7", ocppVersion := "1.6J", nodeId := "node-a"
              connectedAtMs := 0, lastSeenAtMs := some 0, epoch := some 3 })
      "node-b" 10000 5000
      { chargePointId := "CP-7", ocppVersion := "1.6J", nodeId := "node-b"
        connectedAtMs := 10000, lastSeenAtMs := some 10000, epoch := some 0 }).2.2.1
      _ 3 rfl (by decide) (by decide) (by decide) rfl).2.1
  · exact ((sessionDirectory_claim_cases none "node-a" 0 0
      { chargePointId := "CP-1", ocppVersion := "1.6J", nodeId := "node-a"
        connectedAtMs := 0, lastSeenAtMs := some 0, epoch := some 0 }).1 rfl).2.2

/-- Claim C3: after an accepted StartTransaction with payload p, repeating
    the identical payload returns the same transactionId, Accepted, the
    idempotent flag, and leaves the state unchanged; and whenever a different
    transaction is active on the payload's connector, the call is rejected
    with OccurrenceConstraintViolation and the advertised description, again
    without touching the state. The model payload carries exactly the four
    compared fields, so a payload equal to p verbatim is p itself. -/
theorem startTransaction16_idempotent_or_rejects (ctx : OcppState.OcppContext)
    (s : OcppState.ChargePointState) (p : OcppState.StartPayload) :
    ((OcppState.startTransaction16 ctx s p).1.idTagStatus = "Accepted" →
      OcppState.startTransaction16 ctx (OcppState.startTransaction16 ctx s p).2 p =
        ({ transactionId := (OcppState.startTransaction16 ctx s p).1.transactionId
           idTagStatus := "Accepted", idempotent := true, error := none },
         (OcppState.startTransaction16 ctx s p).2)) ∧
    (∀ r, s.activeByConnector p.connectorId = some r →
      (∀ tx, OcppState.resolve16 s r = some tx → OcppState.isSameStart tx p = false) →
      OcppState.startTransaction16 ctx s p =
        ({ transactionId := r, idTagStatus := "Rejected", idempotent := false
           error := some { code := "OccurrenceConstraintViolation"
                           description := "Connector already has an active transaction"
                           chargePointId := ctx.chargePointId } }, s)) := by
  constructor
  · intro hacc
    rcases hact : s.activeByConnector p.connectorId with _ | r
    · simp [OcppState.startTransaction16, hact, OcppState.resolve16, OcppState.upd,
        OcppState.isSameStart]
    · rcases hres : OcppState.resolve16 s r with _ | tx
      · simp [OcppState.startTransaction16, hact, hres] at hacc
      · by_cases hsame : OcppState.isSameStart tx p
        · simp [OcppState.startTransaction16, hact, hres, hsame]
        · simp [OcppState.startTransaction16, hact, hres, hsame] at hacc
  · intro r hact hdiff
    rcases hres : OcppState.resolve16 s r with _ | tx
    · simp [OcppState.startTransaction16, hact, hres, OcppState.stateViolation]
    · have hne := hdiff tx hres
      simp [OcppState.startTransaction16, hact, hres, hne, OcppState.stateViolation]

/-- Witness for C3: on a fresh charger the repeated identical Start is
    idempotent, and a Start with different fields on the occupied connector
    is rejected. -/
theorem startTransaction16_idempotent_or_rejects_witness :
    (OcppState.startTransaction16 OcppState.cexCtx
      (OcppState.startTransaction16 OcppState.cexCtx OcppState.emptyState
        OcppState.cexStartPayload).2 OcppState.cexStartPayload =
      ({ transactionId := (OcppState.startTransaction16 OcppState.cexCtx
           OcppState.emptyState OcppState.cexStartPayload).1.transactionId
         idTagStatus := "Accepted", idempotent := true, error := none },
       (OcppState.startTransaction16 OcppState.cexCtx OcppState.emptyState
         OcppState.cexStartPayload).2)) ∧
    (OcppState.startTransaction16 OcppState.cexCtx
      (OcppState.startTransaction16 OcppState.cexCtx OcppState.emptyState
        OcppState.cexStartPayload).2 OcppState.cexStartOther =
      ({ transactionId := .v16 1, idTagStatus := "Rejected", idempotent := false
         error := some { code := "OccurrenceConstraintViolation"
                         description := "Connector already has an active transaction"
                         chargePointId := "CP-1" } },
       (OcppState.startTransaction16 OcppState.cexCtx OcppState.emptyState
         OcppState.cexStartPayload).2)) := by
  constructor
  · exact (startTransaction16_idempotent_or_rejects OcppState.cexCtx OcppState.emptyState
      OcppState.cexStartPayload).1 (by decide)
  · exact (startTransaction16_idempotent_or_rejects OcppState.cexCtx
      (OcppState.startTransaction16 OcppState.cexCtx OcppState.emptyState
        OcppState.cexStartPayload).2 OcppState.cexStartOther).2 (.v16 1) (by decide)
      (by intro tx htx
          have h1 : OcppState.resolve16
              (OcppState.startTransaction16 OcppState.cexCtx OcppState.emptyState
                OcppState.cexStartPayload).2 (.v16 1) =
              some { transactionId := 1, connectorId := 1, idTag := "TAG-1"
                     meterStart := 100, timestamp := "2024-01-01T00:00:00Z"
                     status := .active, stop := none } := by decide
          rw [h1] at htx
          injection htx with h2
          subst h2
          decide)

/-- Claim C4: a TransactionEvent whose transactionId names an existing
    record and whose seqNo is at most the record's lastSeqNo is answered
    Accepted with the idempotent flag and the state is returned unchanged. -/
theorem handleTransactionEvent_stale_seqNo (ctx : OcppState.OcppContext)
    (s : OcppState.ChargePointState) (p : OcppState.TxEventPayload)
    (tid : String) (tx : OcppState.Tx2) (n m : Int)
    (hid : p.transactionId = some tid)
    (htx : s.transactions2 tid = some tx)
    (hseq : p.seqNo = some n) (hlast : tx.lastSeqNo = some m) (hle : n ≤ m) :
    OcppState.handleTransactionEvent ctx s p =
      ({ idTokenStatus := "Accepted", idempotent := true, error := none }, s) := by
  simp [OcppState.handleTransactionEvent, hid, htx, hseq, hlast, hle]

/-- Witness for C4: repeating the Started event for T-1 with the same seqNo
    0 leaves the state untouched. -/
theorem handleTransactionEvent_stale_seqNo_witness :
    OcppState.handleTransactionEvent OcppState.cexCtx OcppState.cexSeqState
      OcppState.cexSeqStart =
      ({ idTokenStatus := "Accepted", idempotent := true, error := none },
       OcppState.cexSeqState) :=
  handleTransactionEvent_stale_seqNo OcppState.cexCtx OcppState.cexSeqState
    OcppState.cexSeqStart "T-1"
    { transactionId := "T-1", evseId := none, connectorId := some 1, idToken := none
      startedAt := some "t0", status := .active, lastSeqNo := some 0 }
    0 0 rfl (by decide) rfl rfl (by decide)

/-- Claim C5, counterexample: a Started event for an existing record with
    the larger seqNo 5 is accepted (flagged idempotent) but the stored
    lastSeqNo stays 0, strictly below the incoming seqNo, so the
    Started-with-existing-record path does not advance lastSeqNo. -/
theorem handleTransactionEvent_started_keeps_lastSeqNo :
    OcppState.handleTransactionEvent OcppState.cexCtx OcppState.cexSeqState
      OcppState.cexSeqRepeat =
      ({ idTokenStatus := "Accepted", idempotent := true, error := none },
       OcppState.cexSeqState) ∧
    OcppState.cexSeqState.transactions2 "T-1" =
      some { transactionId := "T-1", evseId := none, connectorId := some 1, idToken := none
             startedAt := some "t0", status := .active, lastSeqNo := some 0 } ∧
    (0 : Int) < 5 := by
  refine ⟨?_, by decide, by decide⟩
  have hlow : jsToLower "Started" = "started" := by decide
  have h1 : OcppState.cexSeqState.transactions2 "T-1" =
      some { transactionId := "T-1", evseId := none, connectorId := some 1, idToken := none
             startedAt := some "t0", status := .active, lastSeqNo := some 0 } := by decide
  simp [OcppState.handleTransactionEvent, OcppState.cexSeqRepeat, hlow, h1]

/-- Claim C5, amended: whenever handleTransactionEvent accepts an event
    carrying a seqNo, the stored lastSeqNo afterwards is at least that seqNo
    — except on the Started-with-existing-record idempotent path, which
    returns Accepted without touching the record. -/
theorem handleTransactionEvent_advances_lastSeqNo (ctx : OcppState.OcppContext)
    (s : OcppState.ChargePointState) (p : OcppState.TxEventPayload)
    (tid : String) (n : Int)
    (hid : p.transactionId = some tid) (hseq : p.seqNo = some n)
    (hnostart : ¬(jsToLower p.eventType = "started" ∧ (s.transactions2 tid).isSome = true))
    (hok : (OcppState.handleTransactionEvent ctx s p).1.error = none) :
    ∃ tx m, (OcppState.handleTransactionEvent ctx s p).2.transactions2 tid = some tx ∧
      tx.lastSeqNo = some m ∧ n ≤ m := by
  rcases hcase : s.transactions2 tid with _ | ex
  · by_cases hev : jsToLower p.eventType = "started"
    · refine ⟨{ transactionId := tid, evseId := p.evseId, connectorId := p.connectorId
                idToken := p.idToken, startedAt := p.timestamp
                status := .active, lastSeqNo := some n }, n, ?_, rfl, le_refl n⟩
      simp [OcppState.handleTransactionEvent, hid, hcase, hev, hseq, OcppState.upd]
    · exfalso
      simp [OcppState.handleTransactionEvent, hid, hcase, hev] at hok
  · have hne : ¬ jsToLower p.eventType = "started" :=
      fun h => hnostart ⟨h, by simp [hcase]⟩
    rcases hl : ex.lastSeqNo with _ | m
    · by_cases hed : jsToLower p.eventType = "ended"
      · refine ⟨{ ex with lastSeqNo := some n, status := .ended }, n, ?_, rfl, le_refl n⟩
        simp [OcppState.handleTransactionEvent, hid, hcase, hl, hseq, hne, hed,
          OcppState.upd]
      · refine ⟨{ ex with lastSeqNo := some n }, n, ?_, rfl, le_refl n⟩
        simp [OcppState.handleTransactionEvent, hid, hcase, hl, hseq, hne, hed,
          OcppState.upd]
    · by_cases hnm : n ≤ m
      · refine ⟨ex, m, ?_, hl, hnm⟩
        simp [OcppState.handleTransactionEvent, hid, hcase, hl, hseq, hnm]
      · by_cases hed : jsToLower p.eventType = "ended"
        · refine ⟨{ ex with lastSeqNo := some n, status := .ended }, n, ?_, rfl, le_refl n⟩
          simp [OcppState.handleTransactionEvent, hid, hcase, hl, hseq, hne, hed, hnm,
            OcppState.upd]
        · refine ⟨{ ex with lastSeqNo := some n }, n, ?_, rfl, le_refl n⟩
          simp [OcppState.handleTransactionEvent, hid, hcase, hl, hseq, hne, hed, hnm,
            OcppState.upd]

/-- Witness for C5 (amended): an Updated event with seqNo 7 on the existing
    record T-1 advances lastSeqNo to at least 7. -/
theorem handleTransactionEvent_advances_lastSeqNo_witness :
    ∃ tx m, (OcppState.handleTransactionEvent OcppState.cexCtx OcppState.cexSeqState
      { eventType := "Updated", seqNo := some 7, transactionId := some "T-1"
        evseId := none, connectorId := some 1, idToken := none
        timestamp := some "t2" }).2.transactions2 "T-1" = some tx ∧
      tx.lastSeqNo = some m ∧ (7 : Int) ≤ m :=
  handleTransactionEvent_advances_lastSeqNo OcppState.cexCtx OcppState.cexSeqState
    { eventType := "Updated", seqNo := some 7, transactionId := some "T-1"
      evseId := none, connectorId := some 1, idToken := none, timestamp := some "t2" }
    "T-1" 7 rfl rfl (by decide) (by decide)

/-- The invariant holds at the fresh per-charger state. -/
theorem inv16_empty : OcppState.Inv16 OcppState.emptyState := by
  refine ⟨fun i tx h => ?_, fun i tx h _ => ?_, fun c r h => ?_, fun id => rfl⟩ <;>
    simp [OcppState.emptyState] at h

/-- startTransaction16 preserves the 1.6J invariant. -/
theorem inv16_start (ctx : OcppState.OcppContext) (p : OcppState.StartPayload)
    {s : OcppState.ChargePointState} (h : OcppState.Inv16 s) :
    OcppState.Inv16 (OcppState.startTransaction16 ctx s p).2 := by
  obtain ⟨h1, h2, h3, h4⟩ := h
  rcases hact : s.activeByConnector p.connectorId with _ | r
  · simp only [OcppState.startTransaction16, hact]
    refine ⟨?_, ?_, ?_, fun id => h4 id⟩
    · intro i tx hti
      simp only [OcppState.upd] at hti
      by_cases hie : i = s.transactionCounter + 1
      · subst hie
        rw [if_pos rfl] at hti
        injection hti with h'
        subst h'
        exact ⟨rfl, le_refl _⟩
      · rw [if_neg hie] at hti
        obtain ⟨hid, hle⟩ := h1 i tx hti
        refine ⟨hid, ?_⟩
        show i ≤ s.transactionCounter + 1
        omega
    · intro i tx hti hstat
      simp only [OcppState.upd] at hti ⊢
      by_cases hie : i = s.transactionCounter + 1
      · subst hie
        rw [if_pos rfl] at hti
        injection hti with h'
        subst h'
        simp
      · rw [if_neg hie] at hti
        have hmap := h2 i tx hti hstat
        have hcne : tx.connectorId ≠ p.connectorId := by
          intro he
          rw [he, hact] at hmap
          cases hmap
        rw [if_neg hcne]
        exact hmap
    · intro c r hcr
      simp only [OcppState.upd] at hcr
      by_cases hce : c = p.connectorId
      · subst hce
        rw [if_pos rfl] at hcr
        injection hcr with h'
        subst h'
        refine ⟨s.transactionCounter + 1,
          { transactionId := s.transactionCounter + 1, connectorId := p.connectorId
            idTag := p.idTag, meterStart := p.meterStart, timestamp := p.timestamp
            status := .active, stop := none }, rfl, ?_, rfl, rfl⟩
        simp [OcppState.upd]
      · rw [if_neg hce] at hcr
        obtain ⟨i, tx, hri, hti, hconn, hstat⟩ := h3 c r hcr
        obtain ⟨hid, hle⟩ := h1 i tx hti
        have hie : i ≠ s.transactionCounter + 1 := by omega
        refine ⟨i, tx, hri, ?_, hconn, hstat⟩
        simp [OcppState.upd, hie, hti]
  · rcases hres : OcppState.resolve16 s r with _ | tx
    · simpa [OcppState.startTransaction16, hact, hres] using ⟨h1, h2, h3, h4⟩
    · by_cases hsame : OcppState.isSameStart tx p <;>
        simpa [OcppState.startTransaction16, hact, hres, hsame] using ⟨h1, h2, h3, h4⟩

/-- stopTransaction16 preserves the 1.6J invariant. -/
theorem inv16_stop (ctx : OcppState.OcppContext) (p : OcppState.StopPayload)
    {s : OcppState.ChargePointState} (h : OcppState.Inv16 s) :
    OcppState.Inv16 (OcppState.stopTransaction16 ctx s p).2 := by
  obtain ⟨h1, h2, h3, h4⟩ := h
  rcases htx : s.transactions16 p.transactionId with _ | tx
  · simpa [OcppState.stopTransaction16, htx] using ⟨h1, h2, h3, h4⟩
  · by_cases hst : tx.status = .stopped
    · rcases hstop : tx.stop with _ | st
      · simpa [OcppState.stopTransaction16, htx, hst, hstop] using ⟨h1, h2, h3, h4⟩
      · cases hb : (st.meterStop == p.meterStop && st.timestamp == p.timestamp) <;>
          simpa [OcppState.stopTransaction16, htx, hst, hstop, hb] using ⟨h1, h2, h3, h4⟩
    · have hstat : tx.status = .active := by
        cases hh : tx.status
        · rfl
        · exact absurd hh hst
      obtain ⟨hid, hle⟩ := h1 p.transactionId tx htx
      simp only [OcppState.stopTransaction16, htx, if_neg hst]
      refine ⟨?_, ?_, ?_, fun id => h4 id⟩
      · intro i txi hti
        simp only [OcppState.upd] at hti
        by_cases hie : i = p.transactionId
        · subst hie
          rw [if_pos rfl] at hti
          injection hti with h'
          subst h'
          exact ⟨hid, hle⟩
        · rw [if_neg hie] at hti
          exact h1 i txi hti
      · intro i txi hti hstat2
        simp only [OcppState.upd] at hti ⊢
        by_cases hie : i = p.transactionId
        · subst hie
          rw [if_pos rfl] at hti
          injection hti with h'
          subst h'
          simp at hstat2
        · rw [if_neg hie] at hti
          have hmap := h2 i txi hti hstat2
          have hcne : txi.connectorId ≠ tx.connectorId := by
            intro hce
            have hmapt := h2 p.transactionId tx htx hstat
            rw [hce] at hmap
            rw [hmap] at hmapt
            injection hmapt with h'
            injection h' with h''
            exact hie h''
          rw [if_neg hcne]
          exact hmap
      · intro c r hcr
        simp only [OcppState.upd] at hcr
        by_cases hce : c = tx.connectorId
        · subst hce
          rw [if_pos rfl] at hcr
          cases hcr
        · rw [if_neg hce] at hcr
          obtain ⟨i, txi, hri, hti, hconn, hstat2⟩ := h3 c r hcr
          have hie : i ≠ p.transactionId := by
            intro he
            subst he
            rw [htx] at hti
            injection hti with h'
            subst h'
            exact hce hconn.symm
          refine ⟨i, txi, hri, ?_, hconn, hstat2⟩
          simp [OcppState.upd, hie, hti]

/-- The invariant yields the claim's two conclusions. -/
theorem inv16_single_active {s : OcppState.ChargePointState} (h : OcppState.Inv16 s) :
    OcppState.AtMostOneActive s ∧ OcppState.ActiveMapCorrect s := by
  obtain ⟨h1, h2, h3, h4⟩ := h
  have key : ∀ c r, OcppState.ActiveOn s c r → s.activeByConnector c = some r := by
    intro c r hr
    cases r with
    | v16 i =>
      obtain ⟨tx, hti, hconn, hstat⟩ := hr
      have := h2 i tx hti hstat
      rwa [hconn] at this
    | v2 id =>
      obtain ⟨tx, hti, _, _⟩ := hr
      rw [h4 id] at hti
      cases hti
  constructor
  · intro c r1 r2 hr1 hr2
    have k1 := key c r1 hr1
    have k2 := key c r2 hr2
    rw [k1] at k2
    exact Option.some.inj k2
  · intro c r hcr
    obtain ⟨i, tx, hri, hti, hconn, hstat⟩ := h3 c r hcr
    have hact : OcppState.ActiveOn s c r := by
      subst hri
      exact ⟨tx, hti, hconn, hstat⟩
    refine ⟨hact, fun r' hr' => ?_⟩
    have k' := key c r' hr'
    rw [hcr] at k'
    injection k' with h'
    exact h'.symm

/-- Claim C2, counterexample: from the empty state, two 2.x Started events
    for the distinct transactions A and B on connector 1 are both accepted,
    leaving two simultaneously active transactions on the same connector —
    handleTransactionEvent never checks activeByConnector before creating a
    record, so the claimed invariant fails for sequences that include it. -/
theorem twoStarted_two_active_on_connector :
    OcppState.Reachable OcppState.cexTwoStartedState ∧
    OcppState.ActiveOn OcppState.cexTwoStartedState 1 (.v2 "A") ∧
    OcppState.ActiveOn OcppState.cexTwoStartedState 1 (.v2 "B") ∧
    ¬ OcppState.AtMostOneActive OcppState.cexTwoStartedState := by
  have hA : OcppState.ActiveOn OcppState.cexTwoStartedState 1 (.v2 "A") :=
    ⟨{ transactionId := "A", evseId := none, connectorId := some 1, idToken := none
       startedAt := some "t0", status := .active, lastSeqNo := some 0 }, by decide, rfl, rfl⟩
  have hB : OcppState.ActiveOn OcppState.cexTwoStartedState 1 (.v2 "B") :=
    ⟨{ transactionId := "B", evseId := none, connectorId := some 1, idToken := none
       startedAt := some "t1", status := .active, lastSeqNo := some 0 }, by decide, rfl, rfl⟩
  refine ⟨?_, hA, hB, fun hone => ?_⟩
  · exact OcppState.Reachable.event OcppState.cexCtx OcppState.cexStartedB
      (OcppState.Reachable.event OcppState.cexCtx OcppState.cexStartedA
        OcppState.Reachable.empty)
  · have := hone 1 (.v2 "A") (.v2 "B") hA hB
    exact absurd this (by decide)

/-- Claim C2, amended: for every state reachable from the empty state by
    1.6J startTransaction16 and stopTransaction16 calls, each connector has
    at most one active transaction, and activeByConnector maps a connector
    to a transaction id only while that transaction is the single active one
    there; the 2.x handleTransactionEvent path does not maintain this. -/
theorem reachable16_single_active (s : OcppState.ChargePointState)
    (h : OcppState.Reachable16 s) :
    OcppState.AtMostOneActive s ∧ OcppState.ActiveMapCorrect s := by
  have hinv : OcppState.Inv16 s := by
    induction h with
    | empty => exact inv16_empty
    | start ctx p _ ih => exact inv16_start ctx p ih
    | stop ctx p _ ih => exact inv16_stop ctx p ih
  exact inv16_single_active hinv

/-- Witness for C2 (amended) at the state reached by one accepted Start. -/
theorem reachable16_single_active_witness :
    OcppState.AtMostOneActive
      (OcppState.startTransaction16 OcppState.cexCtx OcppState.emptyState
        OcppState.cexStartPayload).2 ∧
    OcppState.ActiveMapCorrect
      (OcppState.startTransaction16 OcppState.cexCtx OcppState.emptyState
        OcppState.cexStartPayload).2 :=
  reachable16_single_active _
    (OcppState.Reachable16.start OcppState.cexCtx OcppState.cexStartPayload
      OcppState.Reachable16.empty)

/-- Storing a reply in an enabled cache makes it the value the next get for
    the same key returns. -/
theorem cacheGet_cacheSet (c : Engine.ResponseCache) (ctx : OcppState.OcppContext)
    (uniqueId : String) (r : Engine.Reply) (h : 0 < c.ttlSeconds) :
    Engine.cacheGet (Engine.cacheSet c ctx uniqueId r) ctx uniqueId = some r := by
  have hn : ¬ c.ttlSeconds ≤ 0 := by omega
  simp [Engine.cacheGet, Engine.cacheSet, hn, List.find?]

/-- Claim C6: for a frame parsed as a CALL, the engine consults the response
    cache first — a hit returns the stored reply with the cache untouched,
    for every validator and adapter whatsoever, so neither is consulted —
    and with the cache enabled, whatever reply the engine returns is stored
    under the same (chargePointId, messageId) key in exactly the form it was
    returned, so a repeat of the messageId yields that reply. -/
theorem engine_cache_before_validation (cache : Engine.ResponseCache)
    (ctx : OcppState.OcppContext) (uniqueId action : String) (payload : Option Json) :
    (∀ deps r, Engine.cacheGet cache ctx uniqueId = some r →
      Engine.handleCall deps cache ctx uniqueId action payload = (r, cache)) ∧
    (∀ deps, 0 < cache.ttlSeconds →
      Engine.cacheGet (Engine.handleCall deps cache ctx uniqueId action payload).2 ctx
        uniqueId = some (Engine.handleCall deps cache ctx uniqueId action payload).1) := by
  constructor
  · intro deps r hr
    simp [Engine.handleCall, hr]
  · intro deps httl
    rcases hr : Engine.cacheGet cache ctx uniqueId with _ | r
    · simp only [Engine.handleCall, hr]
      repeat' split
      all_goals exact cacheGet_cacheSet cache ctx uniqueId _ httl
    · simp only [Engine.handleCall, hr]

/-- Witness for C6: a concrete hit returns the cached reply unchanged, and a
    concrete miss stores the reply it returns. -/
theorem engine_cache_before_validation_witness :
    Engine.handleCall Engine.trivialDeps Engine.cexHitCache OcppState.cexCtx "m1"
      "Heartbeat" none = (Engine.cexReply, Engine.cexHitCache) ∧
    Engine.cacheGet (Engine.handleCall Engine.trivialDeps Engine.cexMissCache
        OcppState.cexCtx "m2" "Heartbeat" none).2 OcppState.cexCtx "m2" =
      some (Engine.handleCall Engine.trivialDeps Engine.cexMissCache OcppState.cexCtx
        "m2" "Heartbeat" none).1 := by
  constructor
  · exact (engine_cache_before_validation Engine.cexHitCache OcppState.cexCtx "m1"
      "Heartbeat" none).1 Engine.trivialDeps Engine.cexReply rfl
  · exact (engine_cache_before_validation Engine.cexMissCache OcppState.cexCtx "m2"
      "Heartbeat" none).2 Engine.trivialDeps (by decide)

/-- The code's key dispatch agrees with the claim's list once that list also
    carries contains and additionalProperties. -/
theorem keyKind_agrees (k : String) :
    SchemaValidator.codeKeyKind k = SchemaValidator.amendedKeyKind k := by
  unfold SchemaValidator.codeKeyKind SchemaValidator.amendedKeyKind
  split <;> simp_all

/-- The two dispatches are equal as functions. -/
theorem codeKeyKind_eq_amendedKeyKind :
    SchemaValidator.codeKeyKind = SchemaValidator.amendedKeyKind :=
  funext keyKind_agrees

/-- Claim C7, counterexample: for the non-allow-listed action
    StatusNotification and a schema whose only object sub-schema sits under
    contains, the registered schema gains additionalProperties false inside
    contains while the claim's transformation (whose recursion list omits
    contains) leaves the schema untouched — so the registered schema is not
    the claim's transform of the source. -/
theorem registeredSchema_differs_from_claim_transform :
    SchemaValidator.registeredSchema SchemaValidator.defaultAllowList "StatusNotification"
      SchemaValidator.cexSchema =
      .obj [("contains", .obj [("type", .str "object"),
                               ("additionalProperties", .bool false)])] ∧
    SchemaValidator.visitSchema SchemaValidator.claimKeyKind SchemaValidator.cexSchema =
      SchemaValidator.cexSchema ∧
    Json.obj [("contains", Json.obj [("type", Json.str "object"),
                                     ("additionalProperties", Json.bool false)])] ≠
      SchemaValidator.cexSchema := by
  refine ⟨?_, ?_, ?_⟩
  · have h : SchemaValidator.defaultAllowList.contains "StatusNotification" = false := by
      decide
    simp only [SchemaValidator.registeredSchema,
      SchemaValidator.applyAdditionalPropertiesDefaults, h, if_neg Bool.false_ne_true]
    rfl
  · rfl
  · intro h
    simp [SchemaValidator.cexSchema] at h

/-- Claim C7, amended: the schema registered for an allow-listed action is
    the source schema unchanged; for every other action it is the source
    schema with additionalProperties defaulted to false on every
    object-shaped sub-schema, descending through the claim's key list plus
    contains and additionalProperties; and the default allow-list is the
    singleton DataTransfer. -/
theorem registeredSchema_amended (allowList : List String) (action : String)
    (schema : Json) :
    (allowList.contains action = true →
      SchemaValidator.registeredSchema allowList action schema = schema) ∧
    (allowList.contains action = false →
      SchemaValidator.registeredSchema allowList action schema =
        SchemaValidator.visitSchema SchemaValidator.amendedKeyKind schema) ∧
    SchemaValidator.defaultAllowList = ["DataTransfer"] := by
  refine ⟨?_, ?_, by decide⟩
  · intro h
    unfold SchemaValidator.registeredSchema SchemaValidator.applyAdditionalPropertiesDefaults
    rw [h, if_pos rfl]
  · intro h
    simp only [SchemaValidator.registeredSchema,
      SchemaValidator.applyAdditionalPropertiesDefaults, h, if_neg Bool.false_ne_true]
    rw [codeKeyKind_eq_amendedKeyKind]

/-- Witness for C7 (amended): the allow-listed DataTransfer schema is
    registered untouched, and a non-allow-listed action's schema is the
    amended transform of the source. -/
theorem registeredSchema_amended_witness :
    SchemaValidator.registeredSchema ["DataTransfer"] "DataTransfer"
      SchemaValidator.cexSchema = SchemaValidator.cexSchema ∧
    SchemaValidator.registeredSchema SchemaValidator.defaultAllowList "BootNotification"
      SchemaValidator.cexSchema =
      SchemaValidator.visitSchema SchemaValidator.amendedKeyKind SchemaValidator.cexSchema := by
  constructor
  · exact (registeredSchema_amended ["DataTransfer"] "DataTransfer"
      SchemaValidator.cexSchema).1 (by decide)
  · exact (registeredSchema_amended SchemaValidator.defaultAllowList "BootNotification"
      SchemaValidator.cexSchema).2.1 (by decide)

end OcppGateway
